import Mathlib

/-!
Shallow embedding of the Linkedin-Auto-Agent backend (Python, FastAPI) and
proofs about its content-generation, persistence, error-handling and
engagement-tracking behaviour.

Conventions used throughout:
* Python strings are Lean `String`s; `needle in haystack` is `containsSub`.
* Python dicts holding JSON request/response bodies are association lists
  `List (String × _)` or records, as noted on each definition.
* `datetime.now().isoformat()` and `uuid.uuid4()` are nondeterministic inputs
  and are passed to the embedded handlers as explicit `String` parameters.
* SQL statements executed through `psycopg2` are modelled by their standard
  relational semantics on an in-memory table (`INSERT` appends a row,
  `SELECT ... WHERE ... ORDER BY ... ASC` filters and sorts).
-/

namespace InfluenceOS

/-- `prefixCheck n h` is true when the char list `n` is a prefix of `h`. -/
def prefixCheck : List Char → List Char → Bool
  | [], _ => true
  | _ :: _, [] => false
  | a :: as, b :: bs => a == b && prefixCheck as bs

/-- `infixCheck n h` is true when the char list `n` occurs contiguously in `h`. -/
def infixCheck (needle : List Char) : List Char → Bool
  | [] => needle.isEmpty
  | b :: t => prefixCheck needle (b :: t) || infixCheck needle t

/-- Python `needle in haystack` substring membership on strings. -/
def containsSub (haystack needle : String) : Bool :=
  infixCheck needle.data haystack.data

/-- Python `s.lower()`, modelled as ASCII per-character lowercasing (all the
keyword tables in the source are ASCII). -/
def pyLower (s : String) : String :=
  String.mk (s.data.map Char.toLower)

/-- Python `s.strip()`: remove leading and trailing whitespace. -/
def pyStrip (s : String) : String :=
  String.mk (((s.data.dropWhile Char.isWhitespace).reverse.dropWhile
    Char.isWhitespace).reverse)

/-- Python `bool(os.getenv(...))`: an unset variable (`None`) and the empty
string are falsy, any other string is truthy. -/
def envTruthy (o : Option String) : Bool :=
  o.getD "" != ""

/-- Python `any(word in topicLower for word in words)`. -/
def anyWordIn (topicLower : String) (words : List String) : Bool :=
  words.any (fun w => containsSub topicLower w)

/-- Shape of the content dict returned by the content generators in
`api/index.py`, `working_server.py`, `basic_server.py` and
`app/services/content_service.py`: keys `text`, `hashtags`, `image_url`,
`model_used`. -/
structure Content where
  text : String
  hashtags : List String
  image_url : String
  model_used : String
deriving DecidableEq

namespace ApiIndex

/-- `get_fallback_image` from `src/Backend/api/index.py` lines 201-212. -/
def get_fallback_image (topic : String) : String :=
  if anyWordIn (pyLower topic) ["ai", "tech", "digital", "innovation"] then
    "https://images.unsplash.com/photo-1518709268805-4e9042af2176?w=800&h=600&fit=crop"
  else if anyWordIn (pyLower topic) ["business", "strategy", "growth"] then
    "https://images.unsplash.com/photo-1552664730-d307ca884978?w=800&h=600&fit=crop"
  else if anyWordIn (pyLower topic) ["leadership", "team", "management"] then
    "https://images.unsplash.com/photo-1507003211169-0a1dd7228f2d?w=800&h=600&fit=crop"
  else
    "https://images.unsplash.com/photo-1560472354-b33ff0c44a43?w=800&h=600&fit=crop"

/-- The four fixed Unsplash URLs `get_fallback_image` chooses between. -/
def fallback_images : List String :=
  ["https://images.unsplash.com/photo-1518709268805-4e9042af2176?w=800&h=600&fit=crop",
   "https://images.unsplash.com/photo-1552664730-d307ca884978?w=800&h=600&fit=crop",
   "https://images.unsplash.com/photo-1507003211169-0a1dd7228f2d?w=800&h=600&fit=crop",
   "https://images.unsplash.com/photo-1560472354-b33ff0c44a43?w=800&h=600&fit=crop"]

/-- The `hashtag_map` dict literal in `generate_hashtags_for_topic`
(`src/Backend/api/index.py` lines 135-142), in Python insertion order. -/
def hashtag_map : List (String × List String) :=
  [("ai", ["#AI", "#ArtificialIntelligence", "#MachineLearning", "#Technology", "#Innovation"]),
   ("business", ["#Business", "#Leadership", "#Strategy", "#Growth", "#Success"]),
   ("marketing", ["#Marketing", "#DigitalMarketing", "#ContentMarketing", "#Branding", "#SocialMedia"]),
   ("leadership", ["#Leadership", "#Management", "#TeamBuilding", "#ProfessionalDevelopment", "#Success"]),
   ("technology", ["#Technology", "#Innovation", "#DigitalTransformation", "#TechTrends", "#Future"]),
   ("startup", ["#Startup", "#Entrepreneurship", "#Innovation", "#Business", "#Growth"])]

/-- `generate_hashtags_for_topic` from `src/Backend/api/index.py` lines
131-154: the first `hashtag_map` key contained in the lower-cased topic wins
and contributes its first five tags followed by the three suffix tags;
otherwise the default list of eight tags is returned.  The dead `except`
branch (the body raises no exception) is not modelled. -/
def generate_hashtags_for_topic (topic : String) : List String :=
  match hashtag_map.find? (fun p => containsSub (pyLower topic) p.1) with
  | some p => p.2.take 5 ++ ["#LinkedIn", "#Professional", "#Networking"]
  | none =>
      ["#LinkedIn", "#Professional", "#Growth", "#Innovation",
       "#Success", "#Business", "#Leadership", "#Networking"]

/-- The f-string literal used for the mock post text in
`generate_mock_content` (`src/Backend/api/index.py` line 125). -/
def mock_text (topic : String) : String :=
  "🚀 Exciting insights about " ++ topic ++
  "!\n\nIn today's rapidly evolving business landscape, understanding " ++ topic ++
  " has become crucial for professional success. Here are key takeaways that can transform your approach:\n\n✅ Stay informed about industry trends\n✅ Embrace continuous learning\n✅ Build meaningful professional relationships\n✅ Focus on delivering genuine value\n\nThe future belongs to those who adapt and innovate. By staying ahead of the curve with " ++ topic ++
  ", we position ourselves for sustained growth and success.\n\nWhat's your experience with " ++ topic ++
  "? Share your thoughts in the comments! 👇"

/-- `generate_mock_content` from `src/Backend/api/index.py` lines 122-129. -/
def generate_mock_content (topic : String) : Content :=
  { text := mock_text topic,
    hashtags := generate_hashtags_for_topic topic,
    image_url := get_fallback_image topic,
    model_used := "mock" }

/-- Environment of `api/index.py`: `OPENROUTER_API_KEY` (None when the
variable is unset) and whether the `httpx` import succeeded. -/
structure Env where
  OPENROUTER_API_KEY : Option String
  HTTPX_AVAILABLE : Bool
deriving DecidableEq

/-- Outcome of the `httpx` POST to the OpenRouter chat-completions endpoint:
either the call raised an exception, or it returned a status code together
with the extracted `choices[0].message.content` string. -/
inductive ApiOutcome where
  | exn (msg : String)
  | resp (status : Nat) (content : String)
deriving DecidableEq

/-- `generate_content_with_openrouter` from `src/Backend/api/index.py` lines
72-120.  Mirrors the source control flow: a falsy API key (unset or empty) or
missing `httpx` short-circuits to mock content; an exception during the call
is caught and yields mock content; a non-200 status raises, which the same
`except` clause turns into mock content; a 200 response yields the stripped
body text with generated hashtags and the fallback image. -/
def generate_content_with_openrouter (env : Env) (outcome : ApiOutcome)
    (topic : String) : Content :=
  if env.OPENROUTER_API_KEY.getD "" = "" || !env.HTTPX_AVAILABLE then
    generate_mock_content topic
  else
    match outcome with
    | .exn _ => generate_mock_content topic
    | .resp status content =>
        if status = 200 then
          { text := pyStrip content,
            hashtags := generate_hashtags_for_topic topic,
            image_url := get_fallback_image topic,
            model_used := "openrouter-mistral" }
        else
          generate_mock_content topic

end ApiIndex

namespace Db

/-- A value in a `RealDictCursor` row: the columns used by the services are
strings; `interests`-style list values are also representable. -/
inductive RVal where
  | s (v : String)
  | l (v : List String)
  | null
deriving DecidableEq

/-- A database row as returned by `psycopg2.extras.RealDictCursor`: an
ordered mapping from column names to values. -/
def Row := List (String × RVal)

instance : DecidableEq Row := by unfold Row; infer_instance

/-- How one call to `execute_query` in `src/Backend/app/db/database.py`
goes: the connection attempt fails (`get_db_connection` returns `None`), the
statement raises `psycopg2.Error`, or the statement executes. -/
inductive ExecOutcome where
  | connFail
  | dbError (msg : String)
  | okExec
deriving DecidableEq

/-- A Python value returned by `execute_query`: `None`, a single row
(`fetchone`), or a list of rows (`fetchall`). -/
inductive DbResult where
  | nil
  | one (r : Row)
  | many (rs : List Row)
deriving DecidableEq

/-- `execute_query` from `src/Backend/app/db/database.py` lines 24-54.
`resultSet` is the set of rows the SQL statement produces when it executes;
`fetch` is the `fetch` keyword argument (`None`, `"one"` or `"all"`).
Connection failure returns `None`; a database error rolls the statement back
and returns `None`; `fetch="one"` returns `cur.fetchone()` (the first row,
or `None` when the result set is empty); `fetch="all"` returns all rows; any
other `fetch` leaves `result = None`. -/
def execute_query (outcome : ExecOutcome) (resultSet : List Row)
    (fetch : Option String) : DbResult :=
  match outcome with
  | .connFail => .nil
  | .dbError _ => .nil
  | .okExec =>
      match fetch with
      | some "one" =>
          match resultSet.head? with
          | some r => .one r
          | none => .nil
      | some "all" => .many resultSet
      | _ => .nil

end Db

namespace Services

open Db

/-- Python truthiness of an optional row (`if existing_user:` /
`if not user:`): `None` and the empty dict are falsy. -/
def truthyRow : Option Row → Bool
  | some r => !r.isEmpty
  | none => false

/-- Result set of `SELECT * FROM users WHERE email = %s` over the abstract
`users` table. -/
def users_where_email (users : List Row) (email : String) : List Row :=
  users.filter (fun r => r.lookup "email" == some (.s email))

/-- `get_user_by_email` from `src/Backend/app/services/user_service.py`
lines 14-17: runs the SELECT through `execute_query` with `fetch="one"`. -/
def get_user_by_email (outcome : ExecOutcome) (users : List Row)
    (email : String) : Option Row :=
  match execute_query outcome (users_where_email users email) (some "one") with
  | .one r => some r
  | _ => none

/-- `get_user_profile` from `src/Backend/app/services/user_service.py`
lines 24-32: `if not user: return None` then returns the row unchanged. -/
def get_user_profile (outcome : ExecOutcome) (users : List Row)
    (email : String) : Option Row :=
  let user := get_user_by_email outcome users email
  if truthyRow user then user else none

/-- The pydantic `UserCreate` model from `src/Backend/api/index.py`
lines 381-389. -/
structure UserCreate where
  email : String
  username : String
  full_name : String
  avatar_url : Option String := none
  linkedin_profile_url : Option String := none
  bio : Option String := none
  industry : Option String := none
  location : Option String := none
deriving DecidableEq

/-- SQL NULL for an optional parameter. -/
def optV : Option String → RVal
  | some s => .s s
  | none => .null

/-- The row inserted by the `INSERT INTO users` statement of `create_user`
(`src/Backend/app/services/user_service.py` lines 4-12), one column per
placeholder. -/
def user_row (u : UserCreate) : Row :=
  [("email", .s u.email), ("username", .s u.username),
   ("full_name", .s u.full_name), ("avatar_url", optV u.avatar_url),
   ("linkedin_profile_url", optV u.linkedin_profile_url),
   ("bio", optV u.bio), ("industry", optV u.industry),
   ("location", optV u.location)]

/-- `create_user` from `src/Backend/app/services/user_service.py` lines
4-12: the INSERT appends a row when it executes and returns the
`RETURNING id, email, username, created_at` row; on connection failure or
database error nothing is inserted and `None` is returned.  `newId` and
`created_at` stand for the database-generated column values. -/
def create_user (outcome : ExecOutcome) (newId created_at : String)
    (users : List Row) (u : UserCreate) : List Row × Option Row :=
  match outcome with
  | .okExec =>
      (users ++ [user_row u],
       some [("id", .s newId), ("email", .s u.email),
             ("username", .s u.username), ("created_at", .s created_at)])
  | _ => (users, none)

/-- Python `dict.get(k, default)` for the string-valued profile columns used
by `generate_intelligent_post`.  Users rows store strings or SQL NULL; a
NULL renders as Python `None` inside the f-string. -/
def profileGet (r : Row) (k d : String) : String :=
  match r.lookup k with
  | some (.s v) => v
  | some .null => "None"
  | some (.l vs) =>
      "[" ++ String.intercalate ", " (vs.map (fun v => "\x27" ++ v ++ "\x27")) ++ "]"
  | none => d

/-- Python `', '.join(user_profile.get('interests', []))`: the users table
has no `interests` column, so the default `[]` applies and the join is empty
unless the profile dict carries a list under that key. -/
def joinedInterests (r : Row) : String :=
  match r.lookup "interests" with
  | some (.l vs) => String.intercalate ", " vs
  | _ => ""

/-- The f-string prompt built by `generate_intelligent_post`
(`src/Backend/app/services/content_service.py` lines 24-37), including the
triple-quoted string\x27s four-space inner indentation. -/
def intelligent_prompt (topic : String) (user_profile : Row) : String :=
  "Create a professional LinkedIn post about: " ++ topic ++
  "\n\n    Your post should be tailored to a " ++
  profileGet user_profile "role" "professional" ++ " in the " ++
  profileGet user_profile "industry" "business" ++
  " industry.\n    The tone should be " ++
  profileGet user_profile "brand_voice" "professional" ++
  ".\n    Focus on topics like " ++ joinedInterests user_profile ++
  ".\n\n    Requirements:\n    - Professional tone suitable for LinkedIn\n    - 150-250 words\n    - Include key insights and actionable advice\n    - End with an engaging question\n    - No hashtags (will be generated separately)\n\n    Topic: " ++
  topic

/-- `generate_intelligent_post` from
`src/Backend/app/services/content_service.py` lines 20-46. -/
def generate_intelligent_post (topic : String) (user_profile : Row) :
    Content :=
  { text := intelligent_prompt topic user_profile,
    hashtags := ["#intelligentcontent",
                 "#" ++ profileGet user_profile "industry" "business"],
    image_url := "https://images.unsplash.com/photo-1552664730-d307ca884978?w=800&h=600&fit=crop",
    model_used := "intelligent-mock" }

/-- A row of the `scheduled_posts` table.  `scheduled_time` timestamps are
modelled as naturals in chronological order; the `status` column is not in
the INSERT column list, its database default is modelled from the spec:
rows are "inserted with status implicitly \x27scheduled\x27". -/
structure ScheduledPost where
  user_id : String
  content : String
  scheduled_time : Nat
  hashtags : Option (List String) := none
  image_url : Option String := none
  status : String := "scheduled"
deriving DecidableEq

/-- `schedule_post` from `src/Backend/app/services/content_service.py`
lines 5-13: a single INSERT through `execute_query` with `fetch="one"`; the
row is appended when the statement executes and the RETURNING row comes
back, otherwise nothing is inserted and `None` is returned. -/
def schedule_post (outcome : ExecOutcome) (db : List ScheduledPost)
    (user_id content : String) (scheduled_time : Nat)
    (hashtags : Option (List String)) (image_url : Option String) :
    List ScheduledPost × Option ScheduledPost :=
  match outcome with
  | .okExec =>
      let row : ScheduledPost :=
        { user_id := user_id, content := content,
          scheduled_time := scheduled_time, hashtags := hashtags,
          image_url := image_url }
      (db ++ [row], some row)
  | _ => (db, none)

/-- Ordering used by `ORDER BY scheduled_time ASC`. -/
def timeLe (a b : ScheduledPost) : Prop :=
  a.scheduled_time ≤ b.scheduled_time

instance : DecidableRel timeLe :=
  fun a b => Nat.decLe a.scheduled_time b.scheduled_time

instance : IsTotal ScheduledPost timeLe :=
  ⟨fun a b => Nat.le_total a.scheduled_time b.scheduled_time⟩

instance : IsTrans ScheduledPost timeLe :=
  ⟨fun _ _ _ h1 h2 => Nat.le_trans h1 h2⟩

/-- `get_scheduled_posts` from
`src/Backend/app/services/content_service.py` lines 15-18:
`SELECT * FROM scheduled_posts WHERE user_id = %s ORDER BY scheduled_time
ASC` through `execute_query` with `fetch="all"`; `None` on failure. -/
def get_scheduled_posts (outcome : ExecOutcome) (db : List ScheduledPost)
    (user_id : String) : Option (List ScheduledPost) :=
  match outcome with
  | .okExec =>
      some (List.insertionSort timeLe
        (db.filter (fun p => p.user_id == user_id)))
  | _ => none

/-- The argument bundle of one `schedule_post` call. -/
structure PostReq where
  user_id : String
  content : String
  scheduled_time : Nat
  hashtags : Option (List String) := none
  image_url : Option String := none
deriving DecidableEq

/-- The row `schedule_post` inserts for a request. -/
def mkPost (r : PostReq) : ScheduledPost :=
  { user_id := r.user_id, content := r.content,
    scheduled_time := r.scheduled_time, hashtags := r.hashtags,
    image_url := r.image_url }

/-- `schedule_post` applied to each request in turn against an executing
database, keeping the table state. -/
def scheduleAll (reqs : List PostReq) (db : List ScheduledPost) :
    List ScheduledPost :=
  reqs.foldl
    (fun d r =>
      (schedule_post .okExec d r.user_id r.content r.scheduled_time
        r.hashtags r.image_url).1)
    db

end Services

/-- Python dict assignment `d[k] = v` on an association list: the first
binding of `k` is overwritten in place, a missing key is appended at the
end (CPython dicts preserve insertion order). -/
def updateAssoc {A : Type} : List (String × A) → String → A → List (String × A)
  | [], k, v => [(k, v)]
  | (k0, v0) :: rest, k, v =>
      if k0 = k then (k0, v) :: rest else (k0, v0) :: updateAssoc rest k v

namespace EngagementTracker

/-- The `total_metrics` dict of a tracked post
(`src/Backend/app/services/engagement_tracker.py` lines 40-47): the six
fixed metric keys.  Metric values reported by callers are Python ints. -/
structure Totals where
  likes : Int
  comments : Int
  shares : Int
  views : Int
  clicks : Int
  reach : Int
deriving DecidableEq

/-- The all-zero `total_metrics` dict a post is initialised with. -/
def zeroTotals : Totals :=
  { likes := 0, comments := 0, shares := 0, views := 0, clicks := 0,
    reach := 0 }

/-- Pointwise order on `total_metrics` dicts. -/
def Totals.le (a b : Totals) : Prop :=
  a.likes ≤ b.likes ∧ a.comments ≤ b.comments ∧ a.shares ≤ b.shares ∧
  a.views ≤ b.views ∧ a.clicks ≤ b.clicks ∧ a.reach ≤ b.reach

instance (a b : Totals) : Decidable (Totals.le a b) := by
  unfold Totals.le; infer_instance

/-- One iteration of the update loop in `track_post_engagement`
(`src/Backend/app/services/engagement_tracker.py` lines 57-62):
`if metric in total_metrics: total_metrics[metric] = max(total_metrics[metric], value)`;
a key outside the six tracked metrics leaves the dict untouched. -/
def applyOne (t : Totals) (k : String) (v : Int) : Totals :=
  if k = "likes" then { t with likes := max t.likes v }
  else if k = "comments" then { t with comments := max t.comments v }
  else if k = "shares" then { t with shares := max t.shares v }
  else if k = "views" then { t with views := max t.views v }
  else if k = "clicks" then { t with clicks := max t.clicks v }
  else if k = "reach" then { t with reach := max t.reach v }
  else t

/-- The whole `for metric, value in metrics.items()` loop. -/
def updateTotals (t : Totals) (metrics : List (String × Int)) : Totals :=
  metrics.foldl (fun acc kv => applyOne acc kv.1 kv.2) t

/-- Per-post entry of `EngagementTracker.engagement_data`.  The
`engagement_rate` float stored alongside (line 66) and the returned
acknowledgment dict are floating-point bookkeeping outside this model;
`total_metrics` and `metrics_history` are modelled exactly. -/
structure PostData where
  post_id : String
  created_at : String
  metrics_history : List (String × List (String × Int))
  total_metrics : Totals
deriving DecidableEq

/-- The fresh entry created when a post id is first tracked
(`engagement_tracker.py` lines 35-48). -/
def initPost (post_id timestamp : String) : PostData :=
  { post_id := post_id, created_at := timestamp, metrics_history := [],
    total_metrics := zeroTotals }

/-- The `engagement_data` dict: post id to tracked data. -/
def TrackerState := List (String × PostData)

/-- `track_post_engagement` from
`src/Backend/app/services/engagement_tracker.py` lines 21-74, state part:
initialise the entry if missing, append the reported metrics to
`metrics_history`, then fold the max-update over the reported metrics. -/
def track_post_engagement (st : TrackerState) (post_id : String)
    (metrics : List (String × Int)) (timestamp : String) : TrackerState :=
  let cur :=
    match List.lookup post_id st with
    | some d => d
    | none => initPost post_id timestamp
  let cur2 : PostData :=
    { cur with
      metrics_history := cur.metrics_history ++ [(timestamp, metrics)],
      total_metrics := updateTotals cur.total_metrics metrics }
  updateAssoc st post_id cur2

/-- Totals currently recorded for a post (all zero when untracked). -/
def totalsOf (st : TrackerState) (post_id : String) : Totals :=
  match List.lookup post_id st with
  | some d => d.total_metrics
  | none => zeroTotals

end EngagementTracker

/-- A field value in a JSON response body. -/
inductive JField where
  | str (v : String)
  | jbool (v : Bool)
  | content (v : Content)
  | row (v : Db.Row)
  | strList (v : List String)
  | boolMap (v : List (String × Bool))
deriving DecidableEq

/-- An HTTP response: status code and JSON object body as an ordered list of
fields (FastAPI serialises plain dict returns with status 200 and
`JSONResponse(status_code=500, content=...)` as given). -/
structure HttpResponse where
  status : Nat
  body : List (String × JField)
deriving DecidableEq

/-- The `JSONResponse` literal every handler's `except` clause builds:
HTTP 500 with exactly `success=False`, `error=str(e)` and a fixed
`message`. -/
def err500 (error message : String) : HttpResponse :=
  { status := 500,
    body := [("success", .jbool false), ("error", .str error),
             ("message", .str message)] }

/-- The parsed JSON body of a `POST /api/v1/pipeline/generate` request,
restricted to the keys the raw-`Request` handlers read with `data.get`:
`topic` and `useIntelligentMode` (`none` = key absent). -/
structure GenRequest where
  topic : Option String := none
  useIntelligentMode : Option Bool := none
deriving DecidableEq

namespace ApiIndex

/-- Python `str()` of the `HTTPException(status_code=404, detail="User not
found")` raised on line 255 of `api/index.py` and caught by the handler's
own `except Exception` clause. -/
def http404_user_not_found : String := "404: User not found"

/-- Python `str()` of the `HTTPException(status_code=400, detail="Email
already registered")` raised on line 397 of `api/index.py`. -/
def http400_email_registered : String := "400: Email already registered"

/-- Python `str()` of the `HTTPException(status_code=500, detail="Failed to
create user")` raised on line 413 of `api/index.py`. -/
def http500_create_failed : String := "500: Failed to create user"

/-- The `POST /api/v1/pipeline/generate` handler `generate_content` from
`src/Backend/api/index.py` lines 242-274.  `body` is `Except.error e` when
`await request.json()` raises (its message `e` reaches the error envelope),
otherwise the parsed body.  Note that the `HTTPException(404)` raised when
intelligent mode finds no user is caught by the handler's own blanket
`except` and turned into the 500 envelope. -/
def generate_content (env : Env) (outcome : ApiOutcome)
    (dbOutcome : Db.ExecOutcome) (users : List Db.Row)
    (body : Except String GenRequest) (now : String) : HttpResponse :=
  match body with
  | .error e => err500 e "Content generation failed"
  | .ok data =>
      if data.useIntelligentMode.getD false then
        match Services.get_user_profile dbOutcome users "test@example.com" with
        | none => err500 http404_user_not_found "Content generation failed"
        | some profile =>
            { status := 200,
              body := [("success", .jbool true),
                       ("content",
                        .content (Services.generate_intelligent_post
                          (data.topic.getD "Professional Development") profile)),
                       ("generated_at", .str now)] }
      else
        { status := 200,
          body := [("success", .jbool true),
                   ("content",
                    .content (generate_content_with_openrouter env outcome
                      (data.topic.getD "Professional Development"))),
                   ("generated_at", .str now)] }

/-- The `POST /api/v1/profile/create` handler `create_user_profile` from
`src/Backend/api/index.py` lines 391-423, returning the users table after
the request together with the response.  Each `execute_query` call opens its
own fresh connection, so the duplicate-check SELECT and the INSERT have
independent outcomes: `selOutcome` for `get_user_by_email` and `insOutcome`
for `create_user`.  Both `HTTPException`s raised in the `try` body are
caught by the handler's own `except Exception` and turned into the 500
envelope. -/
def create_user_profile (selOutcome insOutcome : Db.ExecOutcome)
    (newId created_at : String) (users : List Db.Row)
    (user : Services.UserCreate) : List Db.Row × HttpResponse :=
  if Services.truthyRow
      (Services.get_user_by_email selOutcome users user.email) then
    (users, err500 http400_email_registered "User profile creation failed")
  else
    match Services.create_user insOutcome newId created_at users user with
    | (users2, some new_user) =>
        (users2,
         { status := 200,
           body := [("success", .jbool true), ("user", .row new_user)] })
    | (users2, none) =>
        (users2, err500 http500_create_failed "User profile creation failed")

/-- The `GET /` handler `root` from `src/Backend/api/index.py` lines
218-226. -/
def root (now : String) : HttpResponse :=
  { status := 200,
    body := [("message", .str "InfluenceOS API - Vercel Deployment"),
             ("version", .str "2.0.0"), ("status", .str "healthy"),
             ("timestamp", .str now)] }

/-- The `GET /health` handler `health_check` from `src/Backend/api/index.py`
lines 228-238; `HUGGINGFACE_TOKEN` is the other module-level environment
variable the body reports. -/
def health_check (env : Env) (HUGGINGFACE_TOKEN : Option String)
    (now : String) : HttpResponse :=
  { status := 200,
    body := [("status", .str "healthy"), ("timestamp", .str now),
             ("services",
              .boolMap [("openrouter", envTruthy env.OPENROUTER_API_KEY),
                        ("huggingface", envTruthy HUGGINGFACE_TOKEN)])] }

end ApiIndex

namespace BasicServer

/-- `get_fallback_image` from `src/Backend/basic_server.py` lines 46-57
(same keyword table and URLs as the `api/index.py` copy). -/
def get_fallback_image (topic : String) : String :=
  if anyWordIn (pyLower topic) ["ai", "tech", "digital", "innovation"] then
    "https://images.unsplash.com/photo-1518709268805-4e9042af2176?w=800&h=600&fit=crop"
  else if anyWordIn (pyLower topic) ["business", "strategy", "growth"] then
    "https://images.unsplash.com/photo-1552664730-d307ca884978?w=800&h=600&fit=crop"
  else if anyWordIn (pyLower topic) ["leadership", "team", "management"] then
    "https://images.unsplash.com/photo-1507003211169-0a1dd7228f2d?w=800&h=600&fit=crop"
  else
    "https://images.unsplash.com/photo-1560472354-b33ff0c44a43?w=800&h=600&fit=crop"

/-- `generate_mock_content` from `src/Backend/basic_server.py` lines 37-44:
same f-string text as the `api/index.py` copy but a hardcoded list of eight
hashtags. -/
def generate_mock_content (topic : String) : Content :=
  { text := ApiIndex.mock_text topic,
    hashtags := ["#LinkedIn", "#Professional", "#Growth", "#Innovation",
                 "#Success", "#Business", "#Leadership", "#Networking"],
    image_url := get_fallback_image topic,
    model_used := "mock" }

/-- The `POST /api/v1/pipeline/generate` handler from
`src/Backend/basic_server.py` lines 82-109. -/
def generate_content (body : Except String GenRequest) (now : String) :
    HttpResponse :=
  match body with
  | .error e => err500 e "Content generation failed"
  | .ok data =>
      { status := 200,
        body := [("success", .jbool true),
                 ("content", .content (generate_mock_content
                    (data.topic.getD "Professional Development"))),
                 ("generated_at", .str now)] }

/-- The `GET /` handler `root` from `src/Backend/basic_server.py` lines
63-71. -/
def root (now : String) : HttpResponse :=
  { status := 200,
    body := [("message", .str "InfluenceOS API - Basic Server"),
             ("version", .str "2.0.0"), ("status", .str "healthy"),
             ("timestamp", .str now)] }

/-- The `GET /health` handler `health_check` from
`src/Backend/basic_server.py` lines 73-80. -/
def health_check (now : String) : HttpResponse :=
  { status := 200,
    body := [("status", .str "healthy"), ("timestamp", .str now),
             ("server", .str "basic")] }

end BasicServer

namespace WorkingServer

/-- The `content_templates["ai"]` f-string from
`src/Backend/working_server.py` line 44. -/
def template_ai (topic : String) : String :=
  "🚀 The Future of AI in " ++ topic ++
  "\n\nArtificial Intelligence is revolutionizing how we work, think, and solve complex problems. Here are key insights that every professional should know:\n\n✅ AI augments human capabilities rather than replacing them\n✅ Data quality is crucial for successful AI implementation\n✅ Ethical AI practices build trust and sustainable growth\n✅ Continuous learning is essential in the AI era\n\nThe organizations that embrace AI thoughtfully today will lead tomorrow's innovations. It's not about the technology itself, but how we apply it to create meaningful value.\n\nWhat's your experience with AI in your industry? Share your thoughts below! 👇"

/-- The `content_templates["business"]` f-string from line 46. -/
def template_business (topic : String) : String :=
  "💼 Strategic Insights on " ++ topic ++
  "\n\nIn today's competitive landscape, successful businesses share common traits that set them apart. Here's what I've learned about driving sustainable growth:\n\n✅ Customer-centric thinking drives innovation\n✅ Data-driven decisions outperform gut instincts\n✅ Agile adaptation beats rigid planning\n✅ Strong company culture attracts top talent\n\nThe most successful leaders I know focus on building systems that scale, not just solving immediate problems. They invest in their people, embrace change, and never stop learning.\n\nWhat business strategy has made the biggest impact in your organization? Let's discuss! 💬"

/-- The `content_templates["leadership"]` f-string from line 48. -/
def template_leadership (topic : String) : String :=
  "👥 Leadership Lessons from " ++ topic ++
  "\n\nGreat leadership isn't about having all the answers—it's about asking the right questions and empowering others to find solutions. Here are principles that transform teams:\n\n✅ Listen more than you speak\n✅ Provide clear vision and context\n✅ Celebrate failures as learning opportunities\n✅ Invest in your team's growth consistently\n\nThe best leaders I've worked with create psychological safety where innovation thrives. They understand that their success is measured by their team's success, not individual achievements.\n\nWhat leadership principle has had the most impact on your career? Share your story! 🌟"

/-- The `content_templates["technology"]` f-string from line 50. -/
def template_technology (topic : String) : String :=
  "⚡ Technology Trends in " ++ topic ++
  "\n\nTechnology moves fast, but successful implementation requires strategic thinking. Here's what's shaping the future of how we work:\n\n✅ Cloud-first approaches enable scalability\n✅ Automation frees humans for creative work\n✅ Security must be built-in, not bolted-on\n✅ User experience drives adoption success\n\nThe companies winning today aren't just using the latest tech—they're solving real problems with the right tools. It's about finding the sweet spot between innovation and practicality.\n\nWhich technology trend is making the biggest impact in your field? Let's explore together! 🔍"

/-- The default professional-content f-string from
`src/Backend/working_server.py` line 70. -/
def template_default (topic : String) : String :=
  "🌟 Professional Growth Through " ++ topic ++
  "\n\nEvery day presents new opportunities to learn, grow, and make a meaningful impact. Here's what I've discovered about professional development:\n\n✅ Consistency beats perfection every time\n✅ Network with purpose, not just for numbers\n✅ Share knowledge generously—it comes back multiplied\n✅ Embrace challenges as growth accelerators\n\nThe most successful professionals I know treat every interaction as a chance to add value. They focus on building relationships, not just advancing careers.\n\nWhat's one lesson about " ++ topic ++
  " that changed your perspective? I'd love to hear your insights! 💭"

/-- `get_professional_image` from `src/Backend/working_server.py` lines
83-136.  `random.choice(images)` is nondeterministic; the draw is modelled
by the explicit `pick` parameter selecting `images[pick % len(images)]`
(every list has five entries). -/
def get_professional_image (pick : Nat) (topic : String) : String :=
  let images :=
    if anyWordIn (pyLower topic)
        ["ai", "artificial", "tech", "digital", "innovation", "software",
         "data", "automation"] then
      ["https://images.unsplash.com/photo-1518709268805-4e9042af2176?w=800&h=600&fit=crop&auto=format",
       "https://images.unsplash.com/photo-1451187580459-43490279c0fa?w=800&h=600&fit=crop&auto=format",
       "https://images.unsplash.com/photo-1504384308090-c894fdcc538d?w=800&h=600&fit=crop&auto=format",
       "https://images.unsplash.com/photo-1485827404703-89b55fcc595e?w=800&h=600&fit=crop&auto=format",
       "https://images.unsplash.com/photo-1558494949-ef010cbdcc31?w=800&h=600&fit=crop&auto=format"]
    else if anyWordIn (pyLower topic)
        ["business", "strategy", "growth", "market", "finance", "sales",
         "revenue"] then
      ["https://images.unsplash.com/photo-1552664730-d307ca884978?w=800&h=600&fit=crop&auto=format",
       "https://images.unsplash.com/photo-1454165804606-c3d57bc86b40?w=800&h=600&fit=crop&auto=format",
       "https://images.unsplash.com/photo-1507679799987-c73779587ccf?w=800&h=600&fit=crop&auto=format",
       "https://images.unsplash.com/photo-1556761175-b413da4baf72?w=800&h=600&fit=crop&auto=format",
       "https://images.unsplash.com/photo-1542744173-8e7e53415bb0?w=800&h=600&fit=crop&auto=format"]
    else if anyWordIn (pyLower topic)
        ["leadership", "team", "management", "culture", "collaboration",
         "communication"] then
      ["https://images.unsplash.com/photo-1507003211169-0a1dd7228f2d?w=800&h=600&fit=crop&auto=format",
       "https://images.unsplash.com/photo-1521737604893-d14cc237f11d?w=800&h=600&fit=crop&auto=format",
       "https://images.unsplash.com/photo-1522202176988-66273c2fd55f?w=800&h=600&fit=crop&auto=format",
       "https://images.unsplash.com/photo-1515187029135-18ee286d815b?w=800&h=600&fit=crop&auto=format",
       "https://images.unsplash.com/photo-1600880292203-757bb62b4baf?w=800&h=600&fit=crop&auto=format"]
    else if anyWordIn (pyLower topic)
        ["marketing", "social", "content", "brand", "audience",
         "engagement"] then
      ["https://images.unsplash.com/photo-1460925895917-afdab827c52f?w=800&h=600&fit=crop&auto=format",
       "https://images.unsplash.com/photo-1533750516457-a7f992034fec?w=800&h=600&fit=crop&auto=format",
       "https://images.unsplash.com/photo-1432888622747-4eb9a8efeb07?w=800&h=600&fit=crop&auto=format",
       "https://images.unsplash.com/photo-1611224923853-80b023f02d71?w=800&h=600&fit=crop&auto=format",
       "https://images.unsplash.com/photo-1553028826-f4804a6dba3b?w=800&h=600&fit=crop&auto=format"]
    else
      ["https://images.unsplash.com/photo-1560472354-b33ff0c44a43?w=800&h=600&fit=crop&auto=format",
       "https://images.unsplash.com/photo-1486312338219-ce68e2c6b696?w=800&h=600&fit=crop&auto=format",
       "https://images.unsplash.com/photo-1497032628192-86f99bcd76bc?w=800&h=600&fit=crop&auto=format",
       "https://images.unsplash.com/photo-1559136555-9303baea8ebd?w=800&h=600&fit=crop&auto=format",
       "https://images.unsplash.com/photo-1573164713714-d95e436ab8d6?w=800&h=600&fit=crop&auto=format"]
  (images.get? (pick % images.length)).getD ""

/-- `generate_professional_content` from `src/Backend/working_server.py`
lines 39-81: keyword-driven choice of template text and hashtag list,
followed by the image draw. -/
def generate_professional_content (pick : Nat) (topic : String) : Content :=
  let pair :=
    if anyWordIn (pyLower topic) ["ai", "artificial", "machine", "automation"] then
      (template_ai topic,
       ["#AI", "#ArtificialIntelligence", "#Innovation", "#Technology",
        "#DigitalTransformation", "#MachineLearning", "#LinkedIn",
        "#Professional"])
    else if anyWordIn (pyLower topic)
        ["business", "strategy", "growth", "market", "sales"] then
      (template_business topic,
       ["#Business", "#Strategy", "#Growth", "#Leadership", "#Success",
        "#Innovation", "#LinkedIn", "#Professional"])
    else if anyWordIn (pyLower topic)
        ["leadership", "management", "team", "culture"] then
      (template_leadership topic,
       ["#Leadership", "#Management", "#TeamBuilding", "#Culture",
        "#ProfessionalDevelopment", "#Success", "#LinkedIn",
        "#Professional"])
    else if anyWordIn (pyLower topic) ["tech", "digital", "software", "data"] then
      (template_technology topic,
       ["#Technology", "#Innovation", "#DigitalTransformation",
        "#TechTrends", "#Software", "#Data", "#LinkedIn", "#Professional"])
    else
      (template_default topic,
       ["#Professional", "#Growth", "#Success", "#Innovation", "#LinkedIn",
        "#Networking", "#CareerDevelopment", "#Business"])
  { text := pair.1,
    hashtags := pair.2,
    image_url := get_professional_image pick topic,
    model_used := "professional_template" }

/-- The `POST /api/v1/pipeline/generate` handler from
`src/Backend/working_server.py` lines 170-199. -/
def generate_content (pick : Nat) (body : Except String GenRequest)
    (now : String) : HttpResponse :=
  match body with
  | .error e => err500 e "Content generation failed"
  | .ok data =>
      { status := 200,
        body := [("success", .jbool true),
                 ("content",
                  .content (generate_professional_content pick
                    (data.topic.getD "Professional Development"))),
                 ("generated_at", .str now)] }

/-- The `GET /` handler `root` from `src/Backend/working_server.py` lines
142-158. -/
def root (now : String) : HttpResponse :=
  { status := 200,
    body := [("message", .str "InfluenceOS API - Working Server"),
             ("version", .str "2.0.0"), ("status", .str "healthy"),
             ("timestamp", .str now),
             ("endpoints",
              .strList ["GET /health", "POST /api/v1/pipeline/generate",
                        "POST /api/v1/generate-image", "GET /api/v1/analytics",
                        "GET /api/v1/profile/analyze",
                        "GET /api/v1/outreach/campaigns"])] }

/-- The `GET /health` handler `health_check` from
`src/Backend/working_server.py` lines 160-168. -/
def health_check (now : String) : HttpResponse :=
  { status := 200,
    body := [("status", .str "healthy"), ("timestamp", .str now),
             ("server", .str "working"), ("version", .str "2.0.0")] }

end WorkingServer

namespace SimpleServer

/-- A pipeline event as appended by `send_event`
(`src/Backend/simple_server.py` lines 479-482).  Event dicts are opaque
payloads here: the stream machinery never inspects them, it only appends and
yields them. -/
def Event := String

instance : DecidableEq Event := String.decEq

/-- One entry of the in-memory `active_streams` dict
(`src/Backend/simple_server.py` lines 82-86). -/
structure StreamData where
  topic : String
  status : String
  events : List Event
deriving DecidableEq

/-- The `POST /api/v1/pipeline/generate` handler from
`src/Backend/simple_server.py` lines 75-94: creates the stream entry
(status `"starting"`, empty event list) and answers with the pydantic
`PipelineResponse` — a body of exactly `stream_id` and `message`, with no
`success` field.  `stream_id` stands for the generated `uuid4`. -/
def generate_content (stream_id topic : String) :
    StreamData × HttpResponse :=
  ({ topic := topic, status := "starting", events := [] },
   { status := 200,
     body := [("stream_id", .str stream_id),
              ("message", .str "Content generation started")] })

/-- The early-return body of `GET /api/v1/pipeline/stream/...` when the
stream id is unknown (`src/Backend/simple_server.py` lines 99-100): a plain
dict `error` body, HTTP 200, again with no `success` field. -/
def stream_not_found : HttpResponse :=
  { status := 200, body := [("error", .str "Stream not found")] }

/-- The `GET /` handler `root` from `src/Backend/simple_server.py` lines
58-60. -/
def root : HttpResponse :=
  { status := 200,
    body := [("message", .str "LinkedIn AI Agent Backend is running!"),
             ("status", .str "healthy")] }

/-- The `GET /health` handler `health` from `src/Backend/simple_server.py`
lines 62-64. -/
def health : HttpResponse :=
  { status := 200,
    body := [("status", .str "healthy"),
             ("service", .str "linkedin-ai-agent"),
             ("version", .str "1.0.0")] }

/-- Joint state of one stream id: the `active_streams` entry (`none` once
`cleanup_stream` deleted it), the events already yielded to the SSE client,
the ghost history of events `send_event` actually appended, and whether the
`event_generator` loop has exited. -/
structure SysState where
  stream : Option StreamData
  output : List Event
  appended : List Event
  done : Bool

/-- One iteration of the `event_generator` `while` loop
(`src/Backend/simple_server.py` lines 102-122): if the id left
`active_streams` the loop exits; otherwise every accumulated event is
yielded and the list is cleared in the same atomic step (no `await` between
the `for` and the clear), then the loop exits if the status is
`"complete"`.  The 500ms `asyncio.sleep` is the point where the other
coroutines run; timing itself is not modelled. -/
def stepGen (st : SysState) : SysState :=
  if st.done then st
  else
    match st.stream with
    | none => { st with done := true }
    | some sd =>
        let st1 := { st with
          output := st.output ++ sd.events,
          stream := some { sd with events := [] } }
        if sd.status = "complete" then { st1 with done := true } else st1

/-- An action interleaved with the generator: a generator iteration, a
`send_event` append from the background pipeline task (a no-op when the id
is gone, line 481), a status write by the background task, or
`cleanup_stream` deleting the entry. -/
inductive Act where
  | gen
  | send (e : Event)
  | setStatus (s : String)
  | cleanup

/-- Effect of one action on the joint state. -/
def step (a : Act) (st : SysState) : SysState :=
  match a with
  | .gen => stepGen st
  | .send e =>
      match st.stream with
      | some sd =>
          { st with stream := some { sd with events := sd.events ++ [e] },
                    appended := st.appended ++ [e] }
      | none => st
  | .setStatus s =>
      match st.stream with
      | some sd => { st with stream := some { sd with status := s } }
      | none => st
  | .cleanup => { st with stream := none }

/-- Run a finite interleaving of actions. -/
def run (acts : List Act) (st : SysState) : SysState :=
  acts.foldl (fun s a => step a s) st

/-- State right after `generate_content` registered the stream. -/
def init0 (topic : String) : SysState :=
  { stream := some (generate_content "" topic).1, output := [],
    appended := [], done := false }

instance : BEq Event := inferInstanceAs (BEq String)

instance : LawfulBEq Event := inferInstanceAs (LawfulBEq String)

/-- Coupling invariant of the stream system: while the stream is alive the
appended history is exactly the yielded output followed by the pending
buffer; once the entry is deleted the output is still a prefix of the
appended history (pending events at deletion time are lost, not
re-yielded). -/
def StreamInv (st : SysState) : Prop :=
  (∀ sd, st.stream = some sd → st.appended = st.output ++ sd.events) ∧
  (st.stream = none → ∃ r, st.appended = st.output ++ r)

end SimpleServer

end InfluenceOS

open InfluenceOS

/-- The mock post text is never the empty string, whatever the topic. -/
lemma mock_text_ne_empty (topic : String) :
    InfluenceOS.ApiIndex.mock_text topic ≠ "" := by
  intro hEq
  have hlen := congrArg String.length hEq
  simp only [InfluenceOS.ApiIndex.mock_text, String.length_append] at hlen
  have h1 : 0 < ("🚀 Exciting insights about " : String).length := by decide
  have h0 : ("" : String).length = 0 := rfl
  rw [h0] at hlen
  omega

/-- Whatever the topic, `generate_hashtags_for_topic` returns eight tags,
each beginning with the character `#`. -/
lemma hashtags_shape (topic : String) :
    (InfluenceOS.ApiIndex.generate_hashtags_for_topic topic).length = 8 ∧
    ∀ t ∈ InfluenceOS.ApiIndex.generate_hashtags_for_topic topic,
      t.data.head? = some '#' := by
  unfold InfluenceOS.ApiIndex.generate_hashtags_for_topic
  rcases hfind : InfluenceOS.ApiIndex.hashtag_map.find?
      (fun p => containsSub (pyLower topic) p.1) with _ | p
  · rw [hfind]
    exact ⟨by rfl, by decide⟩
  · rw [hfind]
    have hp := List.mem_of_find?_eq_some hfind
    simp only [InfluenceOS.ApiIndex.hashtag_map, List.mem_cons,
      List.not_mem_nil, or_false] at hp
    rcases hp with hp | hp | hp | hp | hp | hp <;> subst hp <;>
      exact ⟨by rfl, by decide⟩

/-- The fallback image is always one of the four fixed Unsplash URLs. -/
lemma fallback_image_mem (topic : String) :
    InfluenceOS.ApiIndex.get_fallback_image topic ∈
      InfluenceOS.ApiIndex.fallback_images := by
  unfold InfluenceOS.ApiIndex.get_fallback_image
  split_ifs <;> simp [InfluenceOS.ApiIndex.fallback_images]

/-- The `basic_server.py` copy of the fallback image table also always
returns one of the same four URLs. -/
lemma basic_fallback_image_mem (topic : String) :
    InfluenceOS.BasicServer.get_fallback_image topic ∈
      InfluenceOS.ApiIndex.fallback_images := by
  unfold InfluenceOS.BasicServer.get_fallback_image
  split_ifs <;> simp [InfluenceOS.ApiIndex.fallback_images]

/-- C1: for every topic string, `generate_mock_content(topic)` (both the
`api/index.py` version and the `basic_server.py` copy) returns a content
object whose `text` is non-empty, whose `hashtags` list has between 4 and 8
entries, each starting with the character `#`, and whose `image_url` is one
of the fixed Unsplash URLs produced by `get_fallback_image`. -/
theorem c1_generate_mock_content_contract (topic : String) :
    ((InfluenceOS.ApiIndex.generate_mock_content topic).text ≠ "" ∧
     4 ≤ (InfluenceOS.ApiIndex.generate_mock_content topic).hashtags.length ∧
     (InfluenceOS.ApiIndex.generate_mock_content topic).hashtags.length ≤ 8 ∧
     (∀ t ∈ (InfluenceOS.ApiIndex.generate_mock_content topic).hashtags,
        t.data.head? = some '#') ∧
     (InfluenceOS.ApiIndex.generate_mock_content topic).image_url =
       InfluenceOS.ApiIndex.get_fallback_image topic ∧
     InfluenceOS.ApiIndex.get_fallback_image topic ∈
       InfluenceOS.ApiIndex.fallback_images) ∧
    ((InfluenceOS.BasicServer.generate_mock_content topic).text ≠ "" ∧
     4 ≤ (InfluenceOS.BasicServer.generate_mock_content topic).hashtags.length ∧
     (InfluenceOS.BasicServer.generate_mock_content topic).hashtags.length ≤ 8 ∧
     (∀ t ∈ (InfluenceOS.BasicServer.generate_mock_content topic).hashtags,
        t.data.head? = some '#') ∧
     (InfluenceOS.BasicServer.generate_mock_content topic).image_url ∈
       InfluenceOS.ApiIndex.fallback_images) := by
  obtain ⟨hlen, hhash⟩ := hashtags_shape topic
  have hb : (InfluenceOS.BasicServer.generate_mock_content topic).hashtags =
      ["#LinkedIn", "#Professional", "#Growth", "#Innovation",
       "#Success", "#Business", "#Leadership", "#Networking"] := rfl
  refine ⟨⟨mock_text_ne_empty topic, ?_, ?_, hhash, rfl, fallback_image_mem topic⟩,
          ⟨mock_text_ne_empty topic, by rw [hb]; decide, by rw [hb]; decide,
           by rw [hb]; decide, basic_fallback_image_mem topic⟩⟩
  · rw [show (InfluenceOS.ApiIndex.generate_mock_content topic).hashtags.length =
        (InfluenceOS.ApiIndex.generate_hashtags_for_topic topic).length from rfl, hlen]
    decide
  · rw [show (InfluenceOS.ApiIndex.generate_mock_content topic).hashtags.length =
        (InfluenceOS.ApiIndex.generate_hashtags_for_topic topic).length from rfl, hlen]

/-- C1 witness: the contract evaluated at the concrete topic "AI". -/
theorem c1_generate_mock_content_contract_witness :
    "#AI" ∈ (InfluenceOS.ApiIndex.generate_mock_content "AI").hashtags ∧
    ("#AI" : String).data.head? = some '#' ∧
    (InfluenceOS.BasicServer.generate_mock_content "AI").text ≠ "" := by
  have h := c1_generate_mock_content_contract "AI"
  exact ⟨by decide, h.1.2.2.2.1 "#AI" (by decide), h.2.1⟩

/-- C2: for every topic whose lower-cased form contains the substring "ai",
`generate_hashtags_for_topic` returns exactly the five fixed AI hashtags
followed by the three suffix tags — whatever other category keywords the
topic contains, because "ai" is the first key of `hashtag_map` in Python
dict insertion order. -/
theorem c2_ai_hashtags_deterministic (topic : String)
    (h : containsSub (pyLower topic) "ai" = true) :
    InfluenceOS.ApiIndex.generate_hashtags_for_topic topic =
      ["#AI", "#ArtificialIntelligence", "#MachineLearning", "#Technology",
       "#Innovation", "#LinkedIn", "#Professional", "#Networking"] := by
  have hfind : InfluenceOS.ApiIndex.hashtag_map.find?
      (fun p => containsSub (pyLower topic) p.1) =
      some ("ai", ["#AI", "#ArtificialIntelligence", "#MachineLearning",
                   "#Technology", "#Innovation"]) := by
    unfold InfluenceOS.ApiIndex.hashtag_map
    exact List.find?_cons_of_pos _ h
  unfold InfluenceOS.ApiIndex.generate_hashtags_for_topic
  rw [hfind]
  rfl

/-- C2 witness: the topic "AI in business leadership" contains "ai" (and
also the "business" and "leadership" keywords), yet yields the fixed AI
list. -/
theorem c2_ai_hashtags_deterministic_witness :
    containsSub (pyLower "AI in business leadership") "ai" = true ∧
    InfluenceOS.ApiIndex.generate_hashtags_for_topic
        "AI in business leadership" =
      ["#AI", "#ArtificialIntelligence", "#MachineLearning", "#Technology",
       "#Innovation", "#LinkedIn", "#Professional", "#Networking"] :=
  ⟨by decide, c2_ai_hashtags_deterministic "AI in business leadership" (by decide)⟩

/-- C6: whenever the OpenRouter API key is unset, the HTTP client is
unavailable, the call raises, or the response status is not 200,
`generate_content_with_openrouter(topic)` returns exactly
`generate_mock_content(topic)` — the failure is swallowed with no retry and
no error surfaced. -/
theorem c6_openrouter_failure_falls_back
    (env : InfluenceOS.ApiIndex.Env) (outcome : InfluenceOS.ApiIndex.ApiOutcome)
    (topic : String)
    (h : env.OPENROUTER_API_KEY = none ∨ env.HTTPX_AVAILABLE = false ∨
         ∀ b, outcome ≠ InfluenceOS.ApiIndex.ApiOutcome.resp 200 b) :
    InfluenceOS.ApiIndex.generate_content_with_openrouter env outcome topic =
      InfluenceOS.ApiIndex.generate_mock_content topic := by
  unfold InfluenceOS.ApiIndex.generate_content_with_openrouter
  by_cases hc : (env.OPENROUTER_API_KEY.getD "" = "" || !env.HTTPX_AVAILABLE) = true
  · rw [if_pos hc]
  · rw [if_neg hc]
    rcases h with h | h | h
    · exact absurd (by rw [h]; simp) hc
    · exact absurd (by rw [h]; simp) hc
    · cases outcome with
      | exn m => rfl
      | resp s b =>
          by_cases hs : s = 200
          · exact absurd (by rw [hs]) (h b)
          · simp only [if_neg hs]

/-- C6 witness: with a key present and `httpx` available but the call
raising, the result is the mock content for the topic "AI". -/
theorem c6_openrouter_failure_falls_back_witness :
    InfluenceOS.ApiIndex.generate_content_with_openrouter
        ⟨some "sk-key", true⟩ (.exn "boom") "AI" =
      InfluenceOS.ApiIndex.generate_mock_content "AI" :=
  c6_openrouter_failure_falls_back ⟨some "sk-key", true⟩ (.exn "boom") "AI"
    (Or.inr (Or.inr (fun _b hb => InfluenceOS.ApiIndex.ApiOutcome.noConfusion hb)))

/-- C7: `execute_query` returns Python `None` on connection failure, on a
database error (after the rollback) and when `fetch` is neither "one" nor
"all"; and `get_user_profile` maps every such `None` — as well as a genuine
empty result set — to `None`, so callers cannot distinguish the failure
modes from "no matching row". -/
theorem c7_execute_query_failures_conflated :
    (∀ (outcome : InfluenceOS.Db.ExecOutcome) (rs : List InfluenceOS.Db.Row)
       (fetch : Option String),
       (outcome = InfluenceOS.Db.ExecOutcome.connFail ∨
        (∃ m, outcome = InfluenceOS.Db.ExecOutcome.dbError m) ∨
        (fetch ≠ some "one" ∧ fetch ≠ some "all")) →
       InfluenceOS.Db.execute_query outcome rs fetch = .nil) ∧
    (∀ (users : List InfluenceOS.Db.Row) (email m : String),
       InfluenceOS.Services.get_user_profile .connFail users email = none ∧
       InfluenceOS.Services.get_user_profile (.dbError m) users email = none ∧
       (InfluenceOS.Services.users_where_email users email = [] →
        InfluenceOS.Services.get_user_profile .okExec users email = none)) := by
  constructor
  · intro outcome rs fetch h
    rcases h with h | ⟨m, h⟩ | ⟨h1, h2⟩
    · subst h; rfl
    · subst h; rfl
    · cases outcome with
      | connFail => rfl
      | dbError m => rfl
      | okExec =>
          unfold InfluenceOS.Db.execute_query
          split <;> simp_all
  · intro users email m
    refine ⟨rfl, rfl, fun hempty => ?_⟩
    unfold InfluenceOS.Services.get_user_profile
      InfluenceOS.Services.get_user_by_email
    rw [hempty]
    rfl

/-- C7 witness: instantiated at a connection failure, a database error with
a one-row table, and an empty result set. -/
theorem c7_execute_query_failures_conflated_witness :
    InfluenceOS.Db.execute_query .connFail [] (some "one") = .nil ∧
    InfluenceOS.Services.get_user_profile (.dbError "syntax error")
      [[("email", .s "a@b.c")]] "a@b.c" = none ∧
    InfluenceOS.Services.get_user_profile .okExec [] "a@b.c" = none := by
  have h := c7_execute_query_failures_conflated
  exact ⟨h.1 .connFail [] (some "one") (Or.inl rfl),
         (h.2 [[("email", .s "a@b.c")]] "a@b.c" "syntax error").2.1,
         (h.2 [] "a@b.c" "syntax error").2.2 rfl⟩

/-- When the users table holds a (non-degenerate) row with the given email,
the duplicate check in `create_user_profile` fires: `get_user_by_email`
against the executing database is truthy. -/
lemma get_user_by_email_okExec_truthy (users : List InfluenceOS.Db.Row)
    (email : String) (hwf : ∀ r ∈ users, r ≠ [])
    (hdup : ∃ r ∈ users, r.lookup "email" = some (.s email)) :
    InfluenceOS.Services.truthyRow
      (InfluenceOS.Services.get_user_by_email .okExec users email) = true := by
  obtain ⟨r, hr, he⟩ := hdup
  have hmem : r ∈ InfluenceOS.Services.users_where_email users email :=
    List.mem_filter.2 ⟨hr, by simp [he]⟩
  cases hl : InfluenceOS.Services.users_where_email users email with
  | nil => rw [hl] at hmem; cases hmem
  | cons r0 rest =>
      have hr0 : r0 ∈ users := by
        have hm : r0 ∈ InfluenceOS.Services.users_where_email users email := by
          rw [hl]; exact List.mem_cons_self r0 rest
        exact List.mem_of_mem_filter hm
      have hne := hwf r0 hr0
      unfold InfluenceOS.Services.get_user_by_email InfluenceOS.Db.execute_query
      rw [hl]
      cases r0 with
      | nil => exact absurd rfl hne
      | cons a l => rfl

/-- C4 counterexample: the duplicate-check SELECT opens its own connection;
when that connection fails while the INSERT's succeeds, the handler inserts
a second row with the already-registered email `a@b.c` and returns
`success = true` — refuting the claim that a duplicate email always leads to
no insert and an error envelope. -/
theorem c4_duplicate_email_counterexample :
    (InfluenceOS.ApiIndex.create_user_profile .connFail .okExec "id1"
        "2024-01-01" [[("email", .s "a@b.c"), ("username", .s "u")]]
        { email := "a@b.c", username := "u2", full_name := "U Two" }).1 =
      [[("email", .s "a@b.c"), ("username", .s "u")],
       InfluenceOS.Services.user_row
         { email := "a@b.c", username := "u2", full_name := "U Two" }] ∧
    (InfluenceOS.ApiIndex.create_user_profile .connFail .okExec "id1"
        "2024-01-01" [[("email", .s "a@b.c"), ("username", .s "u")]]
        { email := "a@b.c", username := "u2", full_name := "U Two" }).2.status
      = 200 ∧
    ((InfluenceOS.ApiIndex.create_user_profile .connFail .okExec "id1"
        "2024-01-01" [[("email", .s "a@b.c"), ("username", .s "u")]]
        { email := "a@b.c", username := "u2",
          full_name := "U Two" }).2.body.lookup "success") =
      some (.jbool true) :=
  ⟨rfl, rfl, rfl⟩

/-- C4 (amended): the existence check is conditional on its own query
succeeding.  (i) When the duplicate-check SELECT executes, a request whose
email matches an existing user performs no insert — the users table is
returned unchanged whatever the INSERT's own outcome — and yields an error
envelope with `success = false` (the raised `HTTPException(400)` is caught
by the handler's own `except`, so the status is 500).  (ii) When the
duplicate-check SELECT fails on its fresh connection and the INSERT
executes, the row is inserted regardless of duplicates and the handler
answers `success = true` — the existence check is the only uniqueness
enforcement at the application layer.  The hypothesis `hwf` records that
real `SELECT *` rows are never the empty dict. -/
theorem c4_duplicate_email_check_dependent :
    (∀ (insOutcome : InfluenceOS.Db.ExecOutcome)
       (newId created_at : String) (users : List InfluenceOS.Db.Row)
       (u : InfluenceOS.Services.UserCreate),
       (∀ r ∈ users, r ≠ []) →
       (∃ r ∈ users,
         r.lookup "email" = some (InfluenceOS.Db.RVal.s u.email)) →
       (InfluenceOS.ApiIndex.create_user_profile .okExec insOutcome newId
           created_at users u).1 = users ∧
       (InfluenceOS.ApiIndex.create_user_profile .okExec insOutcome newId
           created_at users u).2.status = 500 ∧
       (InfluenceOS.ApiIndex.create_user_profile .okExec insOutcome newId
           created_at users u).2.body.lookup "success" =
         some (.jbool false)) ∧
    (∀ (newId created_at : String) (users : List InfluenceOS.Db.Row)
       (u : InfluenceOS.Services.UserCreate),
       (InfluenceOS.ApiIndex.create_user_profile .connFail .okExec newId
           created_at users u).1 =
         users ++ [InfluenceOS.Services.user_row u] ∧
       (InfluenceOS.ApiIndex.create_user_profile .connFail .okExec newId
           created_at users u).2.status = 200 ∧
       (InfluenceOS.ApiIndex.create_user_profile .connFail .okExec newId
           created_at users u).2.body.lookup "success" =
         some (.jbool true)) := by
  constructor
  · intro insOutcome newId created_at users u hwf hdup
    have ht := get_user_by_email_okExec_truthy users u.email hwf hdup
    unfold InfluenceOS.ApiIndex.create_user_profile
    rw [if_pos ht]
    exact ⟨rfl, rfl, rfl⟩
  · intro newId created_at users u
    exact ⟨rfl, rfl, rfl⟩

/-- C4 witness: a concrete one-row table and a request reusing its email,
with the duplicate check executing (no insert, 500) and with the duplicate
check failing (duplicate row inserted, success). -/
theorem c4_duplicate_email_check_dependent_witness :
    (InfluenceOS.ApiIndex.create_user_profile .okExec .okExec "id1"
        "2024-01-01" [[("email", .s "a@b.c"), ("username", .s "u")]]
        { email := "a@b.c", username := "u2", full_name := "U Two" }).1 =
      [[("email", .s "a@b.c"), ("username", .s "u")]] ∧
    (InfluenceOS.ApiIndex.create_user_profile .okExec .okExec "id1"
        "2024-01-01" [[("email", .s "a@b.c"), ("username", .s "u")]]
        { email := "a@b.c", username := "u2", full_name := "U Two" }).2.status
      = 500 ∧
    (InfluenceOS.ApiIndex.create_user_profile .connFail .okExec "id1"
        "2024-01-01" [[("email", .s "a@b.c"), ("username", .s "u")]]
        { email := "a@b.c", username := "u2", full_name := "U Two" }).2.status
      = 200 :=
  have h := c4_duplicate_email_check_dependent
  have h1 := h.1 .okExec "id1" "2024-01-01"
    [[("email", .s "a@b.c"), ("username", .s "u")]]
    { email := "a@b.c", username := "u2", full_name := "U Two" }
    (by decide) (by decide)
  have h2 := h.2 "id1" "2024-01-01"
    [[("email", .s "a@b.c"), ("username", .s "u")]]
    { email := "a@b.c", username := "u2", full_name := "U Two" }
  ⟨h1.1, h1.2.1, h2.2.1⟩

/-- Scheduling appends exactly the requested rows in order. -/
lemma scheduleAll_eq (reqs : List InfluenceOS.Services.PostReq)
    (db : List InfluenceOS.Services.ScheduledPost) :
    InfluenceOS.Services.scheduleAll reqs db =
      db ++ reqs.map InfluenceOS.Services.mkPost := by
  induction reqs generalizing db with
  | nil => simp [InfluenceOS.Services.scheduleAll]
  | cons r rest ih =>
      simp only [InfluenceOS.Services.scheduleAll, List.foldl_cons] at ih ⊢
      rw [ih]
      simp [InfluenceOS.Services.schedule_post, InfluenceOS.Services.mkPost]

/-- C3: after scheduling any batch of posts through `schedule_post`,
`get_scheduled_posts(user_id)` returns exactly the scheduled rows whose
`user_id` matches (as a permutation of that filter), sorted by
`scheduled_time` ascending, and it contains every previously-scheduled post
of that user. -/
theorem c3_schedule_then_list_sorted (reqs : List InfluenceOS.Services.PostReq)
    (uid : String) :
    ∃ out,
      InfluenceOS.Services.get_scheduled_posts .okExec
        (InfluenceOS.Services.scheduleAll reqs []) uid = some out ∧
      List.Sorted InfluenceOS.Services.timeLe out ∧
      out.Perm ((reqs.map InfluenceOS.Services.mkPost).filter
        (fun p => p.user_id == uid)) ∧
      ∀ r ∈ reqs, r.user_id = uid → InfluenceOS.Services.mkPost r ∈ out := by
  refine ⟨_, rfl, List.sorted_insertionSort _ _, ?_, ?_⟩
  · rw [scheduleAll_eq, List.nil_append]
    exact List.perm_insertionSort _ _
  · intro r hr hu
    have hmem : InfluenceOS.Services.mkPost r ∈
        ((InfluenceOS.Services.scheduleAll reqs []).filter
          (fun p => p.user_id == uid)) := by
      rw [scheduleAll_eq, List.nil_append]
      refine List.mem_filter.2 ⟨List.mem_map_of_mem _ hr, ?_⟩
      simp [InfluenceOS.Services.mkPost, hu]
    exact ((List.perm_insertionSort _ _).mem_iff).2 hmem

/-- C3 witness: three scheduled posts for two users; the first user's post
scheduled at time 5 is indeed listed among that user's calendar entries. -/
theorem c3_schedule_then_list_sorted_witness :
    InfluenceOS.Services.mkPost ⟨"u1", "post a", 5, none, none⟩ ∈
      (InfluenceOS.Services.get_scheduled_posts .okExec
        (InfluenceOS.Services.scheduleAll
          [⟨"u1", "post a", 5, none, none⟩, ⟨"u1", "post b", 3, none, none⟩,
           ⟨"u2", "post c", 1, none, none⟩] []) "u1").getD [] := by
  obtain ⟨out, heq, _, _, hmem⟩ := c3_schedule_then_list_sorted
    [⟨"u1", "post a", 5, none, none⟩, ⟨"u1", "post b", 3, none, none⟩,
     ⟨"u2", "post c", 1, none, none⟩] "u1"
  rw [heq]
  exact hmem ⟨"u1", "post a", 5, none, none⟩ (by decide) rfl

/-- The pointwise order on totals is reflexive. -/
lemma totals_le_refl (t : InfluenceOS.EngagementTracker.Totals) :
    InfluenceOS.EngagementTracker.Totals.le t t :=
  ⟨le_refl _, le_refl _, le_refl _, le_refl _, le_refl _, le_refl _⟩

/-- The pointwise order on totals is transitive. -/
lemma totals_le_trans {a b c : InfluenceOS.EngagementTracker.Totals}
    (h1 : InfluenceOS.EngagementTracker.Totals.le a b)
    (h2 : InfluenceOS.EngagementTracker.Totals.le b c) :
    InfluenceOS.EngagementTracker.Totals.le a c :=
  ⟨le_trans h1.1 h2.1, le_trans h1.2.1 h2.2.1, le_trans h1.2.2.1 h2.2.2.1,
   le_trans h1.2.2.2.1 h2.2.2.2.1, le_trans h1.2.2.2.2.1 h2.2.2.2.2.1,
   le_trans h1.2.2.2.2.2 h2.2.2.2.2.2⟩

/-- One metric update never decreases any total. -/
lemma applyOne_le (t : InfluenceOS.EngagementTracker.Totals) (k : String)
    (v : Int) :
    InfluenceOS.EngagementTracker.Totals.le t
      (InfluenceOS.EngagementTracker.applyOne t k v) := by
  unfold InfluenceOS.EngagementTracker.applyOne
    InfluenceOS.EngagementTracker.Totals.le
  split_ifs <;>
    refine ⟨?_, ?_, ?_, ?_, ?_, ?_⟩ <;>
    first
      | exact le_refl _
      | exact le_max_left _ _

/-- Folding a whole metrics dict never decreases any total. -/
lemma updateTotals_le (ms : List (String × Int))
    (t : InfluenceOS.EngagementTracker.Totals) :
    InfluenceOS.EngagementTracker.Totals.le t
      (InfluenceOS.EngagementTracker.updateTotals t ms) := by
  induction ms generalizing t with
  | nil => exact totals_le_refl t
  | cons kv rest ih =>
      exact totals_le_trans (applyOne_le t kv.1 kv.2)
        (ih (InfluenceOS.EngagementTracker.applyOne t kv.1 kv.2))

/-- Looking up the key just written by `updateAssoc` yields the new value. -/
lemma lookup_updateAssoc {A : Type} (l : List (String × A)) (k : String)
    (v : A) : List.lookup k (InfluenceOS.updateAssoc l k v) = some v := by
  induction l with
  | nil => simp [InfluenceOS.updateAssoc, List.lookup]
  | cons p rest ih =>
      obtain ⟨k0, v0⟩ := p
      by_cases h : k0 = k
      · subst h
        simp [InfluenceOS.updateAssoc, List.lookup]
      · have hb : (k == k0) = false := by
          simp [Ne.symm h]
        simp [InfluenceOS.updateAssoc, h, List.lookup, hb, ih]

/-- C9: tracked totals are monotone — `track_post_engagement` never
decreases any entry of `total_metrics` (each update takes the max of the
previous total and the reported value), and metric keys outside the fixed
six are ignored. -/
theorem c9_engagement_totals_monotone :
    (∀ (st : InfluenceOS.EngagementTracker.TrackerState) (pid : String)
       (ms : List (String × Int)) (ts : String),
       InfluenceOS.EngagementTracker.Totals.le
         (InfluenceOS.EngagementTracker.totalsOf st pid)
         (InfluenceOS.EngagementTracker.totalsOf
           (InfluenceOS.EngagementTracker.track_post_engagement st pid ms ts)
           pid)) ∧
    (∀ (t : InfluenceOS.EngagementTracker.Totals) (v : Int),
       (InfluenceOS.EngagementTracker.applyOne t "likes" v).likes =
         max t.likes v ∧
       (InfluenceOS.EngagementTracker.applyOne t "comments" v).comments =
         max t.comments v ∧
       (InfluenceOS.EngagementTracker.applyOne t "shares" v).shares =
         max t.shares v ∧
       (InfluenceOS.EngagementTracker.applyOne t "views" v).views =
         max t.views v ∧
       (InfluenceOS.EngagementTracker.applyOne t "clicks" v).clicks =
         max t.clicks v ∧
       (InfluenceOS.EngagementTracker.applyOne t "reach" v).reach =
         max t.reach v) ∧
    (∀ (t : InfluenceOS.EngagementTracker.Totals) (k : String) (v : Int),
       k ∉ ["likes", "comments", "shares", "views", "clicks", "reach"] →
       InfluenceOS.EngagementTracker.applyOne t k v = t) := by
  refine ⟨?_, ?_, ?_⟩
  · intro st pid ms ts
    have hup : InfluenceOS.EngagementTracker.totalsOf
        (InfluenceOS.EngagementTracker.track_post_engagement st pid ms ts)
        pid =
        InfluenceOS.EngagementTracker.updateTotals
          (InfluenceOS.EngagementTracker.totalsOf st pid) ms := by
      unfold InfluenceOS.EngagementTracker.track_post_engagement
      cases hl : List.lookup pid st with
      | some d =>
          unfold InfluenceOS.EngagementTracker.totalsOf
          rw [hl, lookup_updateAssoc]
      | none =>
          unfold InfluenceOS.EngagementTracker.totalsOf
          rw [hl, lookup_updateAssoc]
          rfl
    rw [hup]
    exact updateTotals_le ms _
  · intro t v
    exact ⟨rfl, rfl, rfl, rfl, rfl, rfl⟩
  · intro t k v h
    simp only [List.mem_cons, List.not_mem_nil, or_false, not_or] at h
    obtain ⟨h1, h2, h3, h4, h5, h6⟩ := h
    unfold InfluenceOS.EngagementTracker.applyOne
    rw [if_neg h1, if_neg h2, if_neg h3, if_neg h4, if_neg h5, if_neg h6]

/-- C9 witness: tracking likes 7 then likes 3 for one post keeps the total
at 7, a non-tracked key is ignored, and the max equation holds at concrete
totals. -/
theorem c9_engagement_totals_monotone_witness :
    InfluenceOS.EngagementTracker.Totals.le
      (InfluenceOS.EngagementTracker.totalsOf [] "p1")
      (InfluenceOS.EngagementTracker.totalsOf
        (InfluenceOS.EngagementTracker.track_post_engagement [] "p1"
          [("likes", 7)] "2024-01-01") "p1") ∧
    (InfluenceOS.EngagementTracker.applyOne
      { likes := 7, comments := 0, shares := 0, views := 0, clicks := 0,
        reach := 0 } "likes" 3).likes = max 7 3 ∧
    InfluenceOS.EngagementTracker.applyOne
      InfluenceOS.EngagementTracker.zeroTotals "impressions" 5 =
      InfluenceOS.EngagementTracker.zeroTotals := by
  have h := c9_engagement_totals_monotone
  exact ⟨h.1 [] "p1" [("likes", 7)] "2024-01-01",
         (h.2.1 { likes := 7, comments := 0, shares := 0, views := 0,
                  clicks := 0, reach := 0 } 3).1,
         h.2.2 InfluenceOS.EngagementTracker.zeroTotals "impressions" 5
           (by decide)⟩

/-- `stepGen` on an exited generator does nothing. -/
lemma stepGen_done (st : InfluenceOS.SimpleServer.SysState)
    (hd : st.done = true) : InfluenceOS.SimpleServer.stepGen st = st := by
  simp [InfluenceOS.SimpleServer.stepGen, hd]

/-- A generator iteration after the stream id was deleted just exits. -/
lemma stepGen_gone (st : InfluenceOS.SimpleServer.SysState)
    (hd : st.done = false) (hs : st.stream = none) :
    InfluenceOS.SimpleServer.stepGen st = { st with done := true } := by
  simp [InfluenceOS.SimpleServer.stepGen, hd, hs]

/-- A generator iteration on a live, non-complete stream yields the whole
buffer and clears it. -/
lemma stepGen_alive (st : InfluenceOS.SimpleServer.SysState)
    (sd : InfluenceOS.SimpleServer.StreamData)
    (hd : st.done = false) (hs : st.stream = some sd)
    (hc : ¬sd.status = "complete") :
    InfluenceOS.SimpleServer.stepGen st =
      { st with output := st.output ++ sd.events,
                stream := some { sd with events := [] } } := by
  simp [InfluenceOS.SimpleServer.stepGen, hd, hs, hc]

/-- A generator iteration on a live, complete stream yields the buffer,
clears it and exits the loop. -/
lemma stepGen_complete (st : InfluenceOS.SimpleServer.SysState)
    (sd : InfluenceOS.SimpleServer.StreamData)
    (hd : st.done = false) (hs : st.stream = some sd)
    (hc : sd.status = "complete") :
    InfluenceOS.SimpleServer.stepGen st =
      { st with output := st.output ++ sd.events,
                stream := some { sd with events := [] },
                done := true } := by
  simp [InfluenceOS.SimpleServer.stepGen, hd, hs, hc]

/-- Every interleaved action preserves the stream coupling invariant. -/
lemma stream_inv_step (a : InfluenceOS.SimpleServer.Act)
    (st : InfluenceOS.SimpleServer.SysState)
    (h : InfluenceOS.SimpleServer.StreamInv st) :
    InfluenceOS.SimpleServer.StreamInv
      (InfluenceOS.SimpleServer.step a st) := by
  obtain ⟨h1, h2⟩ := h
  cases a with
  | gen =>
      show InfluenceOS.SimpleServer.StreamInv
        (InfluenceOS.SimpleServer.stepGen st)
      by_cases hd : st.done = true
      · rw [stepGen_done st hd]; exact ⟨h1, h2⟩
      · rw [Bool.not_eq_true] at hd
        cases hstream : st.stream with
        | none =>
            rw [stepGen_gone st hd hstream]
            refine ⟨fun sd hsd => ?_, fun _ => h2 hstream⟩
            simp only at hsd
            rw [hstream] at hsd
            cases hsd
        | some sd =>
            have he := h1 sd hstream
            by_cases hc : sd.status = "complete"
            · rw [stepGen_complete st sd hd hstream hc]
              refine ⟨fun sd2 hsd2 => ?_, fun hnone => ?_⟩
              · simp only [Option.some.injEq] at hsd2
                subst hsd2
                simp [he]
              · simp at hnone
            · rw [stepGen_alive st sd hd hstream hc]
              refine ⟨fun sd2 hsd2 => ?_, fun hnone => ?_⟩
              · simp only [Option.some.injEq] at hsd2
                subst hsd2
                simp [he]
              · simp at hnone
  | send e =>
      cases hstream : st.stream with
      | none =>
          show InfluenceOS.SimpleServer.StreamInv
            (match st.stream with
             | some sd =>
                 { st with
                   stream := some { sd with events := sd.events ++ [e] },
                   appended := st.appended ++ [e] }
             | none => st)
          rw [hstream]
          exact ⟨h1, h2⟩
      | some sd =>
          show InfluenceOS.SimpleServer.StreamInv
            (match st.stream with
             | some sd =>
                 { st with
                   stream := some { sd with events := sd.events ++ [e] },
                   appended := st.appended ++ [e] }
             | none => st)
          rw [hstream]
          have he := h1 sd hstream
          refine ⟨fun sd2 hsd2 => ?_, fun hnone => ?_⟩
          · simp only [Option.some.injEq] at hsd2
            subst hsd2
            simp [he]
          · simp at hnone
  | setStatus s =>
      cases hstream : st.stream with
      | none =>
          show InfluenceOS.SimpleServer.StreamInv
            (match st.stream with
             | some sd => { st with stream := some { sd with status := s } }
             | none => st)
          rw [hstream]
          exact ⟨h1, h2⟩
      | some sd =>
          show InfluenceOS.SimpleServer.StreamInv
            (match st.stream with
             | some sd => { st with stream := some { sd with status := s } }
             | none => st)
          rw [hstream]
          have he := h1 sd hstream
          refine ⟨fun sd2 hsd2 => ?_, fun hnone => ?_⟩
          · simp only [Option.some.injEq] at hsd2
            subst hsd2
            simpa using he
          · simp at hnone
  | cleanup =>
      show InfluenceOS.SimpleServer.StreamInv { st with stream := none }
      refine ⟨fun sd hsd => Option.noConfusion hsd, fun _ => ?_⟩
      cases hstream : st.stream with
      | none => exact h2 hstream
      | some sd => exact ⟨sd.events, h1 sd hstream⟩

/-- The invariant holds after any finite interleaving. -/
lemma stream_inv_run (acts : List InfluenceOS.SimpleServer.Act)
    (st : InfluenceOS.SimpleServer.SysState)
    (h : InfluenceOS.SimpleServer.StreamInv st) :
    InfluenceOS.SimpleServer.StreamInv
      (InfluenceOS.SimpleServer.run acts st) := by
  induction acts generalizing st with
  | nil => exact h
  | cons a rest ih =>
      exact ih (InfluenceOS.SimpleServer.step a st) (stream_inv_step a st h)

/-- C8: (i) over any finite interleaving of generator iterations,
`send_event` appends, status writes and cleanup, every event appended to the
stream is yielded to the client at most once (the yielded occurrences of an
event never exceed its appended occurrences); (ii) one iteration of the
event generator on a live stream yields exactly the accumulated events and
clears the buffer in the same step, exiting afterwards when the status is
"complete"; (iii) an iteration that finds the stream id removed from
`active_streams` exits the loop. -/
theorem c8_stream_events_once_and_terminates :
    (∀ (topic : String) (acts : List InfluenceOS.SimpleServer.Act)
       (e : InfluenceOS.SimpleServer.Event),
       (InfluenceOS.SimpleServer.run acts
          (InfluenceOS.SimpleServer.init0 topic)).output.count e ≤
       (InfluenceOS.SimpleServer.run acts
          (InfluenceOS.SimpleServer.init0 topic)).appended.count e) ∧
    (∀ (st : InfluenceOS.SimpleServer.SysState)
       (sd : InfluenceOS.SimpleServer.StreamData),
       st.done = false → st.stream = some sd →
       (InfluenceOS.SimpleServer.stepGen st).output =
         st.output ++ sd.events ∧
       (InfluenceOS.SimpleServer.stepGen st).stream =
         some { sd with events := [] } ∧
       (sd.status = "complete" →
        (InfluenceOS.SimpleServer.stepGen st).done = true)) ∧
    (∀ st : InfluenceOS.SimpleServer.SysState,
       st.done = false → st.stream = none →
       (InfluenceOS.SimpleServer.stepGen st).done = true) := by
  refine ⟨?_, ?_, ?_⟩
  · intro topic acts e
    have hinit : InfluenceOS.SimpleServer.StreamInv
        (InfluenceOS.SimpleServer.init0 topic) :=
      ⟨fun sd hsd => by
        simp only [InfluenceOS.SimpleServer.init0,
          InfluenceOS.SimpleServer.generate_content,
          Option.some.injEq] at hsd
        subst hsd
        rfl,
       fun hn => Option.noConfusion hn⟩
    have hinv := stream_inv_run acts _ hinit
    obtain ⟨r, hr⟩ : ∃ r,
        (InfluenceOS.SimpleServer.run acts
          (InfluenceOS.SimpleServer.init0 topic)).appended =
        (InfluenceOS.SimpleServer.run acts
          (InfluenceOS.SimpleServer.init0 topic)).output ++ r := by
      rcases hstream : (InfluenceOS.SimpleServer.run acts
          (InfluenceOS.SimpleServer.init0 topic)).stream with _ | sd
      · exact hinv.2 hstream
      · exact ⟨sd.events, hinv.1 sd hstream⟩
    rw [hr, List.count_append]
    exact Nat.le_add_right _ _
  · intro st sd hd hs
    by_cases hc : sd.status = "complete"
    · rw [stepGen_complete st sd hd hs hc]
      exact ⟨rfl, rfl, fun _ => rfl⟩
    · rw [stepGen_alive st sd hd hs hc]
      exact ⟨rfl, rfl, fun h => absurd h hc⟩
  · intro st hd hs
    rw [stepGen_gone st hd hs]

/-- C8 witness: a concrete run (append "a", one generator iteration) obeys
the count bound, and a generator step on a live complete stream with one
buffered event flushes it and exits. -/
theorem c8_stream_events_once_and_terminates_witness :
    (InfluenceOS.SimpleServer.run
      [InfluenceOS.SimpleServer.Act.send "a", InfluenceOS.SimpleServer.Act.gen]
      (InfluenceOS.SimpleServer.init0 "AI")).output.count "a" ≤
    (InfluenceOS.SimpleServer.run
      [InfluenceOS.SimpleServer.Act.send "a", InfluenceOS.SimpleServer.Act.gen]
      (InfluenceOS.SimpleServer.init0 "AI")).appended.count "a" ∧
    (InfluenceOS.SimpleServer.stepGen
      { stream := some { topic := "AI", status := "complete", events := ["a"] },
        output := [], appended := ["a"], done := false }).done = true := by
  have h := c8_stream_events_once_and_terminates
  exact ⟨h.1 "AI" [.send "a", .gen] "a",
         (h.2.1
           { stream := some { topic := "AI", status := "complete",
                              events := ["a"] },
             output := [], appended := ["a"], done := false }
           { topic := "AI", status := "complete", events := ["a"] }
           rfl rfl).2.2 rfl⟩

/-- C5 counterexample: the `POST /api/v1/pipeline/generate` route of
`simple_server.py` answers with a `PipelineResponse` body holding exactly
`stream_id` and `message` — there is no `success` field in it, and the
unknown-stream reply of `GET /api/v1/pipeline/stream/...` has none either,
refuting the claim that every route's JSON envelope contains `success`. -/
theorem c5_envelope_claim_counterexample :
    ((InfluenceOS.SimpleServer.generate_content "sid-1" "AI").2.body.lookup
      "success" = none) ∧
    (InfluenceOS.SimpleServer.generate_content "sid-1" "AI").2.body =
      [("stream_id", .str "sid-1"),
       ("message", .str "Content generation started")] ∧
    InfluenceOS.SimpleServer.stream_not_found.body.lookup "success" = none :=
  ⟨rfl, rfl, rfl⟩

/-- C5 (amended): the `POST /api/v1/pipeline/generate` handlers of
`api/index.py`, `working_server.py` and `basic_server.py` always return a
body containing a `success` field, and each of their error paths is an HTTP
500 whose body is exactly `success=false`, `error` and `message`; but the
convention is not universal across routes: the two pipeline routes of
`simple_server.py` reply with `stream_id`/`message` and `error` bodies, and
the root and health routes of all four server entry points reply with
status/metadata bodies, none of which carries a `success` field. -/
theorem c5_envelope_amended :
    (∀ (env : InfluenceOS.ApiIndex.Env)
       (outcome : InfluenceOS.ApiIndex.ApiOutcome)
       (dbo : InfluenceOS.Db.ExecOutcome) (users : List InfluenceOS.Db.Row)
       (data : InfluenceOS.GenRequest) (now : String),
       ((InfluenceOS.ApiIndex.generate_content env outcome dbo users
          (.ok data) now).body.lookup "success").isSome = true) ∧
    (∀ (pick : Nat) (data : InfluenceOS.GenRequest) (now : String),
       ((InfluenceOS.WorkingServer.generate_content pick (.ok data)
          now).body.lookup "success").isSome = true) ∧
    (∀ (data : InfluenceOS.GenRequest) (now : String),
       ((InfluenceOS.BasicServer.generate_content (.ok data)
          now).body.lookup "success").isSome = true) ∧
    (∀ (env : InfluenceOS.ApiIndex.Env)
       (outcome : InfluenceOS.ApiIndex.ApiOutcome)
       (dbo : InfluenceOS.Db.ExecOutcome) (users : List InfluenceOS.Db.Row)
       (e now : String),
       InfluenceOS.ApiIndex.generate_content env outcome dbo users
          (.error e) now =
         { status := 500,
           body := [("success", .jbool false), ("error", .str e),
                    ("message", .str "Content generation failed")] }) ∧
    (∀ (pick : Nat) (e now : String),
       InfluenceOS.WorkingServer.generate_content pick (.error e) now =
         { status := 500,
           body := [("success", .jbool false), ("error", .str e),
                    ("message", .str "Content generation failed")] }) ∧
    (∀ (e now : String),
       InfluenceOS.BasicServer.generate_content (.error e) now =
         { status := 500,
           body := [("success", .jbool false), ("error", .str e),
                    ("message", .str "Content generation failed")] }) ∧
    (∀ (sid topic : String),
       (InfluenceOS.SimpleServer.generate_content sid topic).2.body.lookup
         "success" = none) ∧
    InfluenceOS.SimpleServer.stream_not_found.body.lookup "success" = none ∧
    (∀ now : String,
       (InfluenceOS.ApiIndex.root now).body.lookup "success" = none) ∧
    (∀ (env : InfluenceOS.ApiIndex.Env) (hf : Option String) (now : String),
       (InfluenceOS.ApiIndex.health_check env hf now).body.lookup "success" =
         none) ∧
    (∀ now : String,
       (InfluenceOS.BasicServer.root now).body.lookup "success" = none) ∧
    (∀ now : String,
       (InfluenceOS.BasicServer.health_check now).body.lookup "success" =
         none) ∧
    (∀ now : String,
       (InfluenceOS.WorkingServer.root now).body.lookup "success" = none) ∧
    (∀ now : String,
       (InfluenceOS.WorkingServer.health_check now).body.lookup "success" =
         none) ∧
    InfluenceOS.SimpleServer.root.body.lookup "success" = none ∧
    InfluenceOS.SimpleServer.health.body.lookup "success" = none := by
  refine ⟨?_, fun _ _ _ => rfl, fun _ _ => rfl, fun _ _ _ _ _ _ => rfl,
          fun _ _ _ => rfl, fun _ _ => rfl, fun _ _ => rfl, rfl,
          fun _ => rfl, fun _ _ _ => rfl, fun _ => rfl, fun _ => rfl,
          fun _ => rfl, fun _ => rfl, rfl, rfl⟩
  intro env outcome dbo users data now
  unfold InfluenceOS.ApiIndex.generate_content
  cases hb : data.useIntelligentMode.getD false with
  | false => simp [hb]
  | true =>
      simp only [hb, if_true]
      cases hp : InfluenceOS.Services.get_user_profile dbo users
          "test@example.com" with
      | none => rfl
      | some profile => rfl

/-- C10 counterexample: a parsed body without `topic` but with
`useIntelligentMode: true`, against a database in which the hardcoded user
`test@example.com` does not exist, makes the `api/index.py` handler return a
500 error envelope rather than a success envelope — the raised
`HTTPException(404)` is caught by the handler's own `except`. -/
theorem c10_missing_topic_counterexample :
    (InfluenceOS.ApiIndex.generate_content ⟨none, false⟩ (.exn "x") .okExec []
      (.ok { topic := none, useIntelligentMode := some true })
      "t0").status = 500 ∧
    (InfluenceOS.ApiIndex.generate_content ⟨none, false⟩ (.exn "x") .okExec []
      (.ok { topic := none, useIntelligentMode := some true })
      "t0").body.lookup "success" = some (.jbool false) :=
  ⟨rfl, rfl⟩

/-- C10 (amended): a parsed `pipeline/generate` body lacking `topic`
defaults the topic to "Professional Development" and yields a success
envelope in `working_server.py` and `basic_server.py` unconditionally, and
in `api/index.py` whenever intelligent mode is off — or on with the user
`test@example.com` present; when intelligent mode is requested and that
user is absent, `api/index.py` instead returns the 500 error envelope. -/
theorem c10_missing_topic_defaults (data : InfluenceOS.GenRequest)
    (htopic : data.topic = none) :
    (∀ (env : InfluenceOS.ApiIndex.Env)
       (outcome : InfluenceOS.ApiIndex.ApiOutcome)
       (dbo : InfluenceOS.Db.ExecOutcome) (users : List InfluenceOS.Db.Row)
       (now : String),
       (data.useIntelligentMode ≠ some true →
        InfluenceOS.ApiIndex.generate_content env outcome dbo users
            (.ok data) now =
          { status := 200,
            body := [("success", .jbool true),
                     ("content",
                      .content (InfluenceOS.ApiIndex.generate_content_with_openrouter
                        env outcome "Professional Development")),
                     ("generated_at", .str now)] }) ∧
       (∀ profile, data.useIntelligentMode = some true →
        InfluenceOS.Services.get_user_profile dbo users "test@example.com" =
          some profile →
        InfluenceOS.ApiIndex.generate_content env outcome dbo users
            (.ok data) now =
          { status := 200,
            body := [("success", .jbool true),
                     ("content",
                      .content (InfluenceOS.Services.generate_intelligent_post
                        "Professional Development" profile)),
                     ("generated_at", .str now)] }) ∧
       (data.useIntelligentMode = some true →
        InfluenceOS.Services.get_user_profile dbo users "test@example.com" =
          none →
        InfluenceOS.ApiIndex.generate_content env outcome dbo users
            (.ok data) now =
          InfluenceOS.err500 InfluenceOS.ApiIndex.http404_user_not_found
            "Content generation failed")) ∧
    (∀ (pick : Nat) (now : String),
       InfluenceOS.WorkingServer.generate_content pick (.ok data) now =
         { status := 200,
           body := [("success", .jbool true),
                    ("content",
                     .content (InfluenceOS.WorkingServer.generate_professional_content
                       pick "Professional Development")),
                    ("generated_at", .str now)] }) ∧
    (∀ now : String,
       InfluenceOS.BasicServer.generate_content (.ok data) now =
         { status := 200,
           body := [("success", .jbool true),
                    ("content",
                     .content (InfluenceOS.BasicServer.generate_mock_content
                       "Professional Development")),
                    ("generated_at", .str now)] }) := by
  refine ⟨?_, ?_, ?_⟩
  · intro env outcome dbo users now
    refine ⟨?_, ?_, ?_⟩
    · intro hn
      have hb : data.useIntelligentMode.getD false = false := by
        cases hui : data.useIntelligentMode with
        | none => rfl
        | some b =>
            cases b with
            | false => rfl
            | true => exact absurd hui hn
      unfold InfluenceOS.ApiIndex.generate_content
      simp [hb, htopic]
    · intro profile hui hp
      unfold InfluenceOS.ApiIndex.generate_content
      simp [hui, hp, htopic]
    · intro hui hp
      unfold InfluenceOS.ApiIndex.generate_content
      simp [hui, hp, htopic]
  · intro pick now
    unfold InfluenceOS.WorkingServer.generate_content
    simp [htopic]
  · intro now
    unfold InfluenceOS.BasicServer.generate_content
    simp [htopic]

/-- C10 witness: the amended statement instantiated at a topic-less body
with intelligent mode absent. -/
theorem c10_missing_topic_defaults_witness :
    InfluenceOS.ApiIndex.generate_content ⟨none, false⟩ (.exn "x") .okExec []
        (.ok { topic := none, useIntelligentMode := none }) "t0" =
      { status := 200,
        body := [("success", .jbool true),
                 ("content",
                  .content (InfluenceOS.ApiIndex.generate_content_with_openrouter
                    ⟨none, false⟩ (.exn "x") "Professional Development")),
                 ("generated_at", .str "t0")] } ∧
    InfluenceOS.BasicServer.generate_content
        (.ok { topic := none, useIntelligentMode := none }) "t0" =
      { status := 200,
        body := [("success", .jbool true),
                 ("content",
                  .content (InfluenceOS.BasicServer.generate_mock_content
                    "Professional Development")),
                 ("generated_at", .str "t0")] } := by
  have h := c10_missing_topic_defaults
    { topic := none, useIntelligentMode := none } rfl
  exact ⟨(h.1 ⟨none, false⟩ (.exn "x") .okExec [] "t0").1 (by decide),
         h.2.2 "t0"⟩
